import Mathlib

/-!
Shallow embedding of the Lab 3 HTTP file-storage service.

The service consists of `server.js` (HTTP listener and router),
`classes/PathValidator.js` (filename policy), `classes/FileManager.js`
(file store), `classes/RequestHandler.js` (write and read handlers) and
`classes/ResponseFormatter.js` (response construction).

The file store is modelled as a map from filename to optional contents;
query parameters and path-extracted filenames that may be absent in
JavaScript (`undefined`) are modelled as `Option String`.
-/

namespace Lab3

/-- The persisted file store: a filename maps to `some` contents when the
file exists, `none` when it is absent. -/
abbrev Store : Type := String → Option String

/-- A store with no files. -/
def emptyStore : Store := fun _ => none

/-- JS `String.prototype.includes(sub)`: substring containment test. -/
def strIncludes (s sub : String) : Bool := decide (sub.toList <:+: s.toList)

/-- JS `String.prototype.endsWith(suf)`: suffix test. -/
def strEndsWith (s suf : String) : Bool := decide (suf.toList <:+ s.toList)

/-- JS `String.prototype.trim()`: drop leading and trailing whitespace. -/
def jsTrim (s : String) : String :=
  String.mk (((s.toList.dropWhile Char.isWhitespace).reverse.dropWhile
    Char.isWhitespace).reverse)

/-- A character matched by the class `[a-zA-Z0-9_\-\.]` of
`PathValidator.isValidFilename`. -/
def isValidChar (c : Char) : Bool :=
  ( 'a' ≤ c && c ≤ 'z') || ( 'A' ≤ c && c ≤ 'Z') ||
  ( '0' ≤ c && c ≤ '9') || c = '_' || c = '-' || c = '.'

/-- `PathValidator.isValidFilename`: empty names, traversal sequences,
non-`.txt` extensions and characters outside the whitelist are rejected,
mirroring the four early returns of the source. -/
def isValidFilename (filename : String) : Bool :=
  if filename = "" then false
  else if strIncludes filename ".." || strIncludes filename "/" ||
      strIncludes filename "\\" then false
  else if ! strEndsWith filename ".txt" then false
  else if ! (decide (filename.toList ≠ []) && filename.toList.all isValidChar)
    then false
  else true

/-- `PathValidator.sanitizeFilename`: remove leading and trailing
whitespace. -/
def sanitizeFilename (filename : String) : String := jsTrim filename

/-- `FileManager._getFullPath`, i.e. Node's `path.join(baseDir, filename)`.
Modelled from the spec: for the separator-free, traversal-free relative
names this service passes in, `path.join` is the base directory, one
separator, and the name. -/
def getFullPath (baseDir filename : String) : String :=
  baseDir ++ "/" ++ filename

/-- `FileManager.appendToFile`: append `text + "\n"` to the named file,
creating the directory and the file when absent. -/
def appendToFile (store : Store) (filename text : String) : Store :=
  fun f =>
    if f = filename then some ((store filename).getD "" ++ text ++ "\n")
    else store f

/-- `FileManager.fileExists`: existence probe. -/
def fileExists (store : Store) (filename : String) : Bool :=
  (store filename).isSome

/-- `FileManager.readFile`: `none` (the JS `null`) when the file does not
exist, otherwise its contents. -/
def readFile (store : Store) (filename : String) : Option String :=
  if fileExists store filename then store filename else none

/-- An HTTP response: status code, headers and body. -/
structure Response where
  status : Nat
  headers : List (String × String)
  body : String
deriving DecidableEq

/-- `ResponseFormatter.sendSuccess`. -/
def sendSuccess (data contentType : String) : Response :=
  { status := 200
    headers := [("Content-Type", contentType),
                ("Access-Control-Allow-Origin", "*")]
    body := data }

/-- `ResponseFormatter.sendError`. -/
def sendError (statusCode : Nat) (message : String) : Response :=
  { status := statusCode
    headers := [("Content-Type", "text/plain"),
                ("Access-Control-Allow-Origin", "*")]
    body := message }

/-- `ResponseFormatter.send404`. -/
def send404 (filename : String) : Response :=
  sendError 404 ("Error 404: File \x27" ++ filename ++ "\x27 not found")

/-- `ResponseFormatter.sendWriteSuccess`. -/
def sendWriteSuccess (text : String) : Response :=
  sendSuccess ("Successfully appended: \"" ++ text ++ "\"") "text/plain"

/-- `RequestHandler.handleWriteRequest`: `text` is the `text` query
parameter (`none` when absent); returns the store after the request
together with the response. JS `!text` holds exactly when the parameter
is absent or the empty string. -/
def handleWriteRequest (store : Store) (text : Option String) :
    Store × Response :=
  match text with
  | none => (store, sendError 400 "Bad Request: Missing \"text\" parameter")
  | some t =>
    if t = "" then
      (store, sendError 400 "Bad Request: Missing \"text\" parameter")
    else if ! isValidFilename "file.txt" then
      (store, sendError 400 "Invalid filename")
    else
      (appendToFile store "file.txt" t, sendWriteSuccess t)

/-- `RequestHandler.handleReadRequest`: `filename` is the path-extracted
name (`none` when absent). Reading never mutates the store, so only the
response is returned. -/
def handleReadRequest (store : Store) (filename : Option String) : Response :=
  match filename with
  | none => sendError 400 "Bad Request: No filename provided"
  | some f =>
    if f = "" then sendError 400 "Bad Request: No filename provided"
    else if ! isValidFilename (sanitizeFilename f) then
      sendError 400 "Bad Request: Invalid filename"
    else
      match readFile store (sanitizeFilename f) with
      | none => send404 (sanitizeFilename f)
      | some content => sendSuccess content "text/plain; charset=utf-8"

/-- An incoming HTTP request as seen by the `server.js` callback: method,
parsed pathname, and the `text` query parameter when present. -/
structure Request where
  method : String
  pathname : String
  queryText : Option String

/-- The headers installed with `res.setHeader` before routing; they apply
to every response the server writes. -/
def corsBaseHeaders : List (String × String) :=
  [("Access-Control-Allow-Origin", "*"),
   ("Access-Control-Allow-Methods", "GET, POST, OPTIONS")]

/-- Merge the `setHeader` headers into a response produced by a handler. -/
def withBaseHeaders (r : Response) : Response :=
  { r with headers := corsBaseHeaders ++ r.headers }

/-- The literal route of the read endpoint. -/
def readRoute : String := "/COMP4537/labs/3/readFile/"

/-- The `server.js` request callback: CORS headers, OPTIONS preflight,
routing to the two handlers, and the unmatched-path 404. -/
def serverHandle (store : Store) (req : Request) : Store × Response :=
  if req.method = "OPTIONS" then
    (store, { status := 204, headers := corsBaseHeaders, body := "" })
  else if req.pathname = "/COMP4537/labs/3/writeFile/" ∨
      req.pathname = "/COMP4537/labs/3/writeFile" then
    let sr := handleWriteRequest store req.queryText
    (sr.1, withBaseHeaders sr.2)
  else if req.pathname.startsWith readRoute then
    (store, withBaseHeaders
      (handleReadRequest store ((req.pathname.splitOn readRoute).get? 1)))
  else
    (store, withBaseHeaders (sendError 404
      ("Endpoint not found. Available endpoints:\n" ++
       "- /COMP4537/labs/3/writeFile/?text=YourText\n" ++
       "- /COMP4537/labs/3/readFile/file.txt")))

end Lab3


namespace Lab3

/-! ### Helper lemmas -/

theorem dropWhile_eq_self_of_forall_false {p : Char → Bool} {l : List Char}
    (h : ∀ c ∈ l, p c = false) : l.dropWhile p = l := by
  cases l with
  | nil => rfl
  | cons a l => simp [List.dropWhile_cons, h a (List.mem_cons_self a l)]

theorem toList_eq_nil_iff (s : String) : s.toList = [] ↔ s = "" :=
  ⟨fun h => String.ext h, fun h => by subst h; rfl⟩

theorem isValidFilename_eq_true_iff (f : String) :
    isValidFilename f = true ↔
      f ≠ "" ∧ strIncludes f ".." = false ∧ strIncludes f "/" = false ∧
      strIncludes f "\\" = false ∧ strEndsWith f ".txt" = true ∧
      ∀ c ∈ f.toList, isValidChar c = true := by
  unfold isValidFilename
  split_ifs with h1 h2 h3 h4
  · simp [h1]
  · simp only [Bool.or_eq_true] at h2
    simp only [false_iff, not_and]
    intro _ hdd hsl hbs _
    rcases h2 with (h2 | h2) | h2
    · rw [hdd] at h2; exact absurd h2 (by simp)
    · rw [hsl] at h2; exact absurd h2 (by simp)
    · rw [hbs] at h2; exact absurd h2 (by simp)
  · simp only [Bool.not_eq_true'] at h3 ⊢
    simp only [false_iff, not_and]
    intro _ _ _ _ hend
    simp_all
  · simp only [Bool.not_eq_true', Bool.and_eq_false_iff] at h4
    simp only [false_iff, not_and]
    intro hne _ _ _ _
    rcases h4 with h4 | h4
    · rw [decide_eq_false_iff_not, not_not, toList_eq_nil_iff] at h4
      exact absurd h4 hne
    · intro hall
      rw [List.all_eq_false] at h4
      obtain ⟨c, hc, hcv⟩ := h4
      exact absurd (hall c hc) (by simp [hcv])
  · simp only [Bool.not_eq_true', Bool.and_eq_false_iff] at h3 h4
    push_neg at h4
    simp only [true_iff]
    refine ⟨h1, ?_, ?_, ?_, ?_, ?_⟩
    · exact Bool.eq_false_iff.mpr (fun hh => h2 (by simp [hh]))
    · exact Bool.eq_false_iff.mpr (fun hh => h2 (by simp [hh]))
    · exact Bool.eq_false_iff.mpr (fun hh => h2 (by simp [hh]))
    · simpa using h3
    · intro c hc
      have hall := h4.2
      rw [ne_eq, Bool.not_eq_false, List.all_eq_true] at hall
      exact hall c hc

theorem isValidFilename_eq_false_iff (f : String) :
    isValidFilename f = false ↔
      f = "" ∨ strIncludes f ".." = true ∨ strIncludes f "/" = true ∨
      strIncludes f "\\" = true ∨ strEndsWith f ".txt" = false ∨
      ∃ c ∈ f.toList, isValidChar c = false := by
  rw [← Bool.not_eq_true, isValidFilename_eq_true_iff]
  constructor
  · intro h
    by_contra hc
    push_neg at hc
    obtain ⟨h1, h2, h3, h4, h5, h6⟩ := hc
    refine h ⟨h1, ?_, ?_, ?_, ?_, ?_⟩
    · exact Bool.eq_false_iff.mpr h2
    · exact Bool.eq_false_iff.mpr h3
    · exact Bool.eq_false_iff.mpr h4
    · exact Bool.not_eq_false (strEndsWith f ".txt") ▸ h5
    · intro c hc
      rcases Bool.eq_false_or_eq_true (isValidChar c) with hv | hv
      · exact hv
      · exact absurd hv (h6 c hc)
  · intro h hc
    obtain ⟨h1, h2, h3, h4, h5, h6⟩ := hc
    rcases h with h | h | h | h | h | ⟨c, hcm, hcv⟩
    · exact h1 h
    · rw [h2] at h; exact absurd h (by simp)
    · rw [h3] at h; exact absurd h (by simp)
    · rw [h4] at h; exact absurd h (by simp)
    · rw [h5] at h; exact absurd h (by simp)
    · rw [h6 c hcm] at hcv; exact absurd hcv (by simp)

theorem isValidChar_not_whitespace (c : Char) (h : isValidChar c = true) :
    c.isWhitespace = false := by
  rcases Bool.eq_false_or_eq_true c.isWhitespace with hw | hw
  · exfalso
    simp [Char.isWhitespace] at hw
    rcases hw with ((hw | hw) | hw) | hw <;> subst hw <;>
      exact absurd h (by decide)
  · exact hw

theorem jsTrim_eq_self (s : String)
    (hws : ∀ c ∈ s.toList, c.isWhitespace = false) : jsTrim s = s := by
  unfold jsTrim
  rw [dropWhile_eq_self_of_forall_false hws,
      dropWhile_eq_self_of_forall_false
        (fun c hc => hws c (List.mem_reverse.mp hc)),
      List.reverse_reverse]
  rfl

theorem jsTrim_eq_self_of_valid (f : String) (h : isValidFilename f = true) :
    jsTrim f = f := by
  have hall := ((isValidFilename_eq_true_iff f).mp h).2.2.2.2.2
  exact jsTrim_eq_self f (fun c hc => isValidChar_not_whitespace c (hall c hc))

/-! ### Claim theorems -/

/-- C1: appending text `T` to a store in which the target file is absent
(fresh store) and then reading that file back returns exactly the single
line `T`, i.e. `T` followed by one trailing newline. -/
theorem append_then_read_fresh (store : Store) (f T : String)
    (hfresh : store f = none) :
    readFile (appendToFile store f T) f = some (T ++ "\n") := by
  simp [readFile, fileExists, appendToFile, hfresh]

/-- Witness for C1: `GET /writeFile/?text=BCIT` then reading `file.txt`
on an empty store yields body `BCIT` plus trailing newline. -/
theorem append_then_read_fresh_witness :
    readFile (appendToFile emptyStore "file.txt" "BCIT") "file.txt"
      = some ("BCIT" ++ "\n") :=
  append_then_read_fresh emptyStore "file.txt" "BCIT" rfl

/-- C3: appending `T1` and then `T2` to the same (initially absent) file
yields content `T1 + newline + T2 + newline`: append preserves order. -/
theorem append_append_preserves_order (store : Store) (f T1 T2 : String)
    (hfresh : store f = none) :
    readFile (appendToFile (appendToFile store f T1) f T2) f
      = some (T1 ++ "\n" ++ T2 ++ "\n") := by
  simp [readFile, fileExists, appendToFile, hfresh]

/-- Witness for C3 at `T1 = "BCIT"`, `T2 = "COMP4537"` on the empty
store. -/
theorem append_append_preserves_order_witness :
    readFile (appendToFile (appendToFile emptyStore "file.txt" "BCIT")
        "file.txt" "COMP4537") "file.txt"
      = some ("BCIT" ++ "\n" ++ "COMP4537" ++ "\n") :=
  append_append_preserves_order emptyStore "file.txt" "BCIT" "COMP4537" rfl

/-- C5: a write request whose `text` query parameter is missing or empty
returns 400 and performs no file mutation: the store after handling
equals the store before. -/
theorem write_missing_text_no_mutation (store : Store) (text : Option String)
    (h : text = none ∨ text = some "") :
    (handleWriteRequest store text).1 = store ∧
    (handleWriteRequest store text).2.status = 400 := by
  rcases h with h | h <;> subst h <;> exact ⟨rfl, rfl⟩

/-- Witness for C5 with the `text` parameter absent on the empty store. -/
theorem write_missing_text_no_mutation_witness :
    (handleWriteRequest emptyStore none).1 = emptyStore ∧
    (handleWriteRequest emptyStore none).2.status = 400 :=
  write_missing_text_no_mutation emptyStore none (Or.inl rfl)

/-- C6: the filename policy accepts the literal `file.txt`, so the
`Invalid filename` 400 branch of the write handler is unreachable: every
write request with a non-empty `text` parameter proceeds to the append
operation. -/
theorem write_filename_always_valid (store : Store) :
    isValidFilename "file.txt" = true ∧
    ∀ t : String, t ≠ "" →
      handleWriteRequest store (some t)
        = (appendToFile store "file.txt" t, sendWriteSuccess t) := by
  refine ⟨by decide, fun t ht => ?_⟩
  simp [handleWriteRequest, ht,
    (by decide : isValidFilename "file.txt" = true)]

/-- Witness for C6 at `text = "BCIT"` on the empty store. -/
theorem write_filename_always_valid_witness :
    isValidFilename "file.txt" = true ∧
    handleWriteRequest emptyStore (some "BCIT")
      = (appendToFile emptyStore "file.txt" "BCIT", sendWriteSuccess "BCIT") :=
  ⟨(write_filename_always_valid emptyStore).1,
   (write_filename_always_valid emptyStore).2 "BCIT" (by decide)⟩

/-- C9: handling a write request can only mutate `file.txt`: every other
file of the store is unchanged, whatever the query parameters were. -/
theorem write_frame (store : Store) (text : Option String) (g : String)
    (hg : g ≠ "file.txt") :
    (handleWriteRequest store text).1 g = store g := by
  rcases text with _ | t
  · rfl
  · simp only [handleWriteRequest]
    split_ifs <;> simp [appendToFile, hg]

/-- Witness for C9: a successful write of `BCIT` leaves `other.txt`
unchanged. -/
theorem write_frame_witness :
    (handleWriteRequest emptyStore (some "BCIT")).1 "other.txt"
      = emptyStore "other.txt" :=
  write_frame emptyStore (some "BCIT") "other.txt" (by decide)

theorem handleReadRequest_valid_eval (store : Store) (f : String)
    (hf : f ≠ "") (hv : isValidFilename (jsTrim f) = true) :
    handleReadRequest store (some f)
      = match readFile store (jsTrim f) with
        | none => send404 (jsTrim f)
        | some content => sendSuccess content "text/plain; charset=utf-8" := by
  simp [handleReadRequest, hf, sanitizeFilename, hv]

theorem handleReadRequest_invalid_eval (store : Store) (f : String)
    (hf : f ≠ "") (hv : isValidFilename (jsTrim f) = false) :
    handleReadRequest store (some f)
      = sendError 400 "Bad Request: Invalid filename" := by
  simp [handleReadRequest, hf, sanitizeFilename, hv]

/-- C4: reading a valid filename that is absent from the store returns a
404 response whose body embeds the requested filename, and the store
read signals the absence as the distinguished `none` result rather than
an error. -/
theorem read_absent_404 (store : Store) (f : String)
    (hvalid : isValidFilename f = true) (habsent : store f = none) :
    handleReadRequest store (some f) = send404 f ∧
    readFile store f = none ∧
    (send404 f).status = 404 ∧
    (send404 f).body = "Error 404: File \x27" ++ f ++ "\x27 not found" := by
  have hne : f ≠ "" := ((isValidFilename_eq_true_iff f).mp hvalid).1
  have htrim : jsTrim f = f := jsTrim_eq_self_of_valid f hvalid
  have hread : readFile store f = none := by
    simp [readFile, fileExists, habsent]
  refine ⟨?_, hread, rfl, rfl⟩
  rw [handleReadRequest_valid_eval store f hne
    (by rw [htrim]; exact hvalid), htrim, hread]

/-- Witness for C4: reading `file.txt` on the empty store. -/
theorem read_absent_404_witness :
    handleReadRequest emptyStore (some "file.txt") = send404 "file.txt" ∧
    readFile emptyStore "file.txt" = none ∧
    (send404 "file.txt").status = 404 ∧
    (send404 "file.txt").body
      = "Error 404: File \x27" ++ "file.txt" ++ "\x27 not found" :=
  read_absent_404 emptyStore "file.txt" (by decide) rfl

/-- C8: a filename accepted by the policy contains no `/`, no `\` and no
`..`, and is non-empty, so the full path computed by the file store is
the base directory strictly extended by one separator-free component. -/
theorem valid_filename_stays_inside (baseDir f : String)
    (h : isValidFilename f = true) :
    strIncludes f "/" = false ∧ strIncludes f "\\" = false ∧
    strIncludes f ".." = false ∧ f ≠ "" ∧
    getFullPath baseDir f = (baseDir ++ "/") ++ f := by
  obtain ⟨h1, h2, h3, h4, _, _⟩ := (isValidFilename_eq_true_iff f).mp h
  exact ⟨h3, h4, h2, h1, rfl⟩

/-- Witness for C8 at base directory `/srv/files` and name `file.txt`. -/
theorem valid_filename_stays_inside_witness :
    strIncludes "file.txt" "/" = false ∧
    strIncludes "file.txt" "\\" = false ∧
    strIncludes "file.txt" ".." = false ∧ "file.txt" ≠ "" ∧
    getFullPath "/srv/files" "file.txt" = ("/srv/files" ++ "/") ++ "file.txt" :=
  valid_filename_stays_inside "/srv/files" "file.txt" (by decide)

/-- C10: the bare extension `.txt` is accepted by the filename policy, so
a read request for `.txt` passes validation and probes the store (404
when absent, contents when present) instead of being rejected with
400. -/
theorem bare_txt_accepted (store : Store) :
    isValidFilename ".txt" = true ∧
    handleReadRequest store (some ".txt")
      = (match readFile store ".txt" with
         | none => send404 ".txt"
         | some content => sendSuccess content "text/plain; charset=utf-8") := by
  have h2 : isValidFilename ".txt" = true := by decide
  refine ⟨h2, ?_⟩
  have h1 : jsTrim ".txt" = ".txt" := by decide
  rw [handleReadRequest_valid_eval store ".txt" (by decide) (h1 ▸ h2), h1]

/-- C7: every response produced by the server callback — OPTIONS
preflight, write and read handling (success, 400, 404), and the
unmatched-path 404 — and every response built by the formatter's
`sendError` (the 500 path included) and `sendSuccess` carries the header
`Access-Control-Allow-Origin: *`. -/
theorem all_responses_carry_cors (store : Store) (req : Request) :
    ("Access-Control-Allow-Origin", "*") ∈ (serverHandle store req).2.headers ∧
    (∀ statusCode message, ("Access-Control-Allow-Origin", "*")
      ∈ (sendError statusCode message).headers) ∧
    (∀ data contentType, ("Access-Control-Allow-Origin", "*")
      ∈ (sendSuccess data contentType).headers) := by
  refine ⟨?_, fun c m => by simp [sendError], fun d ct => by simp [sendSuccess]⟩
  unfold serverHandle
  split_ifs with h1 h2 h3
  · simp [corsBaseHeaders]
  · simp [withBaseHeaders, corsBaseHeaders]
  · simp [withBaseHeaders, corsBaseHeaders]
  · simp [withBaseHeaders, corsBaseHeaders]

/-- C2: the read handler answers 400 exactly when the trimmed requested
filename violates the policy — it is missing, empty, contains `..`, `/`
or `\`, does not end in `.txt`, or holds a character outside
`[A-Za-z0-9_.-]` — and for a name the policy rejects, the response is
the same whatever the store contains (no store access is needed). -/
theorem read_reject_400_iff (store : Store) (filename : Option String) :
    ((handleReadRequest store filename).status = 400 ↔
      (jsTrim (filename.getD "") = "" ∨
       strIncludes (jsTrim (filename.getD "")) ".." = true ∨
       strIncludes (jsTrim (filename.getD "")) "/" = true ∨
       strIncludes (jsTrim (filename.getD "")) "\\" = true ∨
       strEndsWith (jsTrim (filename.getD "")) ".txt" = false ∨
       ∃ c ∈ (jsTrim (filename.getD "")).toList, isValidChar c = false)) ∧
    (isValidFilename (jsTrim (filename.getD "")) = false →
      ∀ store2 : Store,
        handleReadRequest store filename = handleReadRequest store2 filename) := by
  rcases filename with _ | f
  · exact ⟨⟨fun _ => Or.inl (by decide), fun _ => rfl⟩, fun _ _ => rfl⟩
  · simp only [Option.getD_some]
    by_cases hf : f = ""
    · subst hf
      exact ⟨⟨fun _ => Or.inl (by decide), fun _ => rfl⟩, fun _ _ => rfl⟩
    · rcases Bool.eq_false_or_eq_true (isValidFilename (jsTrim f)) with hv | hv
      · have heval := handleReadRequest_valid_eval store f hf hv
        refine ⟨⟨fun hst => ?_, fun hr => ?_⟩, fun hfalse _ => ?_⟩
        · exfalso
          rcases hcase : readFile store (jsTrim f) with _ | content
          · rw [heval] at hst
            simp [hcase, send404, sendError] at hst
          · rw [heval] at hst
            simp [hcase, sendSuccess] at hst
        · exfalso
          have hcontra := (isValidFilename_eq_false_iff (jsTrim f)).mpr hr
          rw [hv] at hcontra
          exact absurd hcontra (by decide)
        · rw [hfalse] at hv
          exact absurd hv (by decide)
      · have h1 := handleReadRequest_invalid_eval store f hf hv
        refine ⟨⟨fun _ => (isValidFilename_eq_false_iff (jsTrim f)).mp hv,
          fun _ => ?_⟩, fun _ store2 => ?_⟩
        · rw [h1]; rfl
        · rw [h1, handleReadRequest_invalid_eval store2 f hf hv]

/-- Witness for C2 at filename `file.txt` on the empty store: a valid
name, so the 400 characterization's right side is refuted. -/
theorem read_reject_400_iff_witness :
    ((handleReadRequest emptyStore (some "file.txt")).status = 400 ↔
      (jsTrim "file.txt" = "" ∨
       strIncludes (jsTrim "file.txt") ".." = true ∨
       strIncludes (jsTrim "file.txt") "/" = true ∨
       strIncludes (jsTrim "file.txt") "\\" = true ∨
       strEndsWith (jsTrim "file.txt") ".txt" = false ∨
       ∃ c ∈ (jsTrim "file.txt").toList, isValidChar c = false)) ∧
    (isValidFilename (jsTrim "file.txt") = false →
      ∀ store2 : Store,
        handleReadRequest emptyStore (some "file.txt")
          = handleReadRequest store2 (some "file.txt")) :=
  read_reject_400_iff emptyStore (some "file.txt")

/-- Witness for C7 at a concrete OPTIONS preflight request on the empty
store. -/
theorem all_responses_carry_cors_witness :
    ("Access-Control-Allow-Origin", "*")
      ∈ (serverHandle emptyStore
          { method := "OPTIONS", pathname := "/", queryText := none
            }).2.headers ∧
    (∀ statusCode message, ("Access-Control-Allow-Origin", "*")
      ∈ (sendError statusCode message).headers) ∧
    (∀ data contentType, ("Access-Control-Allow-Origin", "*")
      ∈ (sendSuccess data contentType).headers) :=
  all_responses_carry_cors emptyStore
    { method := "OPTIONS", pathname := "/", queryText := none }

/-- Witness for C10 on the empty store. -/
theorem bare_txt_accepted_witness :
    isValidFilename ".txt" = true ∧
    handleReadRequest emptyStore (some ".txt")
      = (match readFile emptyStore ".txt" with
         | none => send404 ".txt"
         | some content => sendSuccess content "text/plain; charset=utf-8") :=
  bare_txt_accepted emptyStore

end Lab3
